import Mathlib

/-!
Verification of the run-completion coordination protocol implemented in
`packages/server/api/src/app/workers/engine-controller.ts` (the
`/update-run` handler and its helpers `getFlowResponse`,
`markJobAsCompleted`, `markParentRunAsFailed`).

The handler is embedded shallowly as a pure function from a request and an
environment (the results returned by the external collaborators: run store,
URL resolvers, outbound delivery) to a trace of observable effects together
with an `Except` outcome.  Effects that happened before a thrown error are
kept in the trace, mirroring the fact that in the source an exception aborts
the remaining `await`s but does not undo the ones already performed.
-/

/-- Enum `FlowRunStatus` from `@activepieces/shared`, as enumerated by the
switches in the controller. -/
inductive FlowRunStatus
  | QUEUED
  | RUNNING
  | SUCCEEDED
  | FAILED
  | PAUSED
  | TIMEOUT
  | INTERNAL_ERROR
  | QUOTA_EXCEEDED
  | MEMORY_LIMIT_EXCEEDED
deriving DecidableEq, Repr

/-- The TS enum value string, used by template interpolation in error
messages. -/
def statusText : FlowRunStatus → String
  | FlowRunStatus.QUEUED => "QUEUED"
  | FlowRunStatus.RUNNING => "RUNNING"
  | FlowRunStatus.SUCCEEDED => "SUCCEEDED"
  | FlowRunStatus.FAILED => "FAILED"
  | FlowRunStatus.PAUSED => "PAUSED"
  | FlowRunStatus.TIMEOUT => "TIMEOUT"
  | FlowRunStatus.INTERNAL_ERROR => "INTERNAL_ERROR"
  | FlowRunStatus.QUOTA_EXCEEDED => "QUOTA_EXCEEDED"
  | FlowRunStatus.MEMORY_LIMIT_EXCEEDED => "MEMORY_LIMIT_EXCEEDED"

/-- Enum `JobStatus` from `@activepieces/server-shared`. -/
inductive JobStatus
  | COMPLETED
  | FAILED
deriving DecidableEq, Repr

/-- Enum `PauseType` from `@activepieces/shared` (the cases the controller
distinguishes: webhook suspension versus anything else). -/
inductive PauseType
  | WEBHOOK
  | DELAY
deriving DecidableEq, Repr

/-- Enum `ProgressUpdateType` from `@activepieces/shared`. -/
inductive ProgressUpdateType
  | NONE
  | WEBHOOK_RESPONSE
  | TEST_FLOW
deriving DecidableEq, Repr

def progressUpdateTypeText : ProgressUpdateType → String
  | ProgressUpdateType.NONE => "NONE"
  | ProgressUpdateType.WEBHOOK_RESPONSE => "WEBHOOK_RESPONSE"
  | ProgressUpdateType.TEST_FLOW => "TEST_FLOW"

/-- Type `EngineHttpResponse`: the payload published to the engine response
watcher.  The JSON body is modelled as an association list of string
fields (each body built by `getFlowResponse` only holds string fields). -/
structure EngineHttpResponse where
  status : Nat
  body : List (String × String)
  headers : List (String × String)
deriving DecidableEq, Repr

/-- Pause metadata as stored on a loaded flow run (`flowRun.pauseMetadata`),
with the two fields the controller reads: `type` and `requestId`. -/
structure StoredPauseMetadata where
  type : PauseType
  requestId : Option String
deriving DecidableEq, Repr

/-- The projection of a run record returned by
`flowRunService.updateRun` / `getOneOrThrow` that the controller reads. -/
structure FlowRun where
  id : String
  status : FlowRunStatus
  logsFileId : Option String
  failParentOnFailure : Bool
  parentRunId : Option String
  pauseMetadata : Option StoredPauseMetadata
deriving DecidableEq, Repr

/-- Field `runDetails` (a `FlowRunResponse`) inside the update-run request body.
The caller-supplied `pauseMetadata` object is modelled as a JS object:
an association list of fields where a later binding of a key overwrites
an earlier one, exactly as in an object literal spread. -/
structure RunDetails where
  status : FlowRunStatus
  tasks : Option Nat
  duration : Option Nat
  tags : Option (List String)
  error : Option String
  pauseMetadata : Option (List (String × String))
deriving DecidableEq, Repr

/-- The `/update-run` request body (`UpdateRunProgressRequest`). -/
structure UpdateRunRequest where
  runId : String
  workerHandlerId : Option String
  httpRequestId : Option String
  runDetails : RunDetails
  executionStateBuffer : Option String
  executionStateContentLength : Option Nat
  failedStepName : Option String
  progressUpdateType : Option ProgressUpdateType
deriving DecidableEq, Repr

/-- Body of the parent-cascade outbound POST:
`{status: 'error', data: {message, link}}`. -/
structure CascadeBody where
  status : String
  message : String
  link : String
deriving DecidableEq, Repr

/-- The observable effects the `/update-run` handler performs on its
collaborators, in the order the source `await`s them. -/
inductive Effect
  | publish (httpRequestId workerHandlerId : String) (payload : EngineHttpResponse)
  | updateRunStore (flowRunId : String) (status : FlowRunStatus)
      (tasks duration : Option Nat) (tags : List String)
      (failedStepName : Option String)
  | updateLogs (flowRunId : String) (logsFileId : Option String) (contentLength : Nat)
  | emitProgress (projectId runId : String)
  | pause (flowRunId : String) (pauseMetadata : List (String × String))
  | queueAck (jobId : String) (status : JobStatus) (message : String)
  | cascadeInvoke (parentRunId childRunId projectId platformId : String)
  | apPost (url : String) (body : CascadeBody)
  | logError (message : String)
deriving DecidableEq, Repr

/-- Kind tag of an effect, for counting and filtering traces. -/
inductive EffKind
  | publishK
  | storeK
  | logsK
  | emitK
  | pauseK
  | ackK
  | invokeK
  | postK
  | logErrK
deriving DecidableEq, Repr

def effKind : Effect → EffKind
  | Effect.publish _ _ _ => EffKind.publishK
  | Effect.updateRunStore _ _ _ _ _ _ => EffKind.storeK
  | Effect.updateLogs _ _ _ => EffKind.logsK
  | Effect.emitProgress _ _ => EffKind.emitK
  | Effect.pause _ _ => EffKind.pauseK
  | Effect.queueAck _ _ _ => EffKind.ackK
  | Effect.cascadeInvoke _ _ _ _ => EffKind.invokeK
  | Effect.apPost _ _ => EffKind.postK
  | Effect.logError _ => EffKind.logErrK

def ofKind (k : EffKind) (e : Effect) : Bool :=
  effKind e == k

/-- The sub-trace of effects of kind `k`. -/
def kfilter (k : EffKind) (tr : List Effect) : List Effect :=
  tr.filter (ofKind k)

/-- The environment: results of the external collaborators during one
handler execution.  `runWithoutSteps` is what `flowRunService.updateRun`
returns, `uploadUrl` what `updateLogsAndReturnUploadUrl` returns,
`parentRun` what `flowRunService.getOneOrThrow(parentRunId)` returns.
`publicApiUrl`/`publicUrl` model `domainHelper` (not under `src/`): they
resolve a path and a platform id to a URL.  `postFails` models whether the
outbound cascade delivery fails. -/
structure Env where
  runWithoutSteps : FlowRun
  uploadUrl : String
  parentRun : FlowRun
  publicApiUrl : String → String → String
  publicUrl : String → String → String
  postFails : Bool

/-- Condition `nonSupportedStatuses.includes(runDetails.status)` with
`nonSupportedStatuses = [RUNNING, SUCCEEDED, PAUSED]` (line 89). -/
def isNonSupported (s : FlowRunStatus) : Bool :=
  s == FlowRunStatus.RUNNING || s == FlowRunStatus.SUCCEEDED || s == FlowRunStatus.PAUSED

/-- Function `getFlowResponse` (lines 205-244): maps a reported status to the HTTP
payload published to the waiting caller; any other status throws
`Unexpected flow run status`. -/
def getFlowResponse (status : FlowRunStatus) : Except String EngineHttpResponse :=
  match status with
  | FlowRunStatus.INTERNAL_ERROR =>
      Except.ok { status := 500
                  body := [("message", "An internal error has occurred")]
                  headers := [] }
  | FlowRunStatus.FAILED =>
      Except.ok { status := 500
                  body := [("message", "The flow has failed and there is no response returned")]
                  headers := [] }
  | FlowRunStatus.MEMORY_LIMIT_EXCEEDED =>
      Except.ok { status := 500
                  body := [("message", "The flow has failed and there is no response returned")]
                  headers := [] }
  | FlowRunStatus.TIMEOUT =>
      Except.ok { status := 504
                  body := [("message", "The request took too long to reply")]
                  headers := [] }
  | FlowRunStatus.QUOTA_EXCEEDED =>
      Except.ok { status := 204, body := [], headers := [] }
  | s => Except.error ("Unexpected flow run status: " ++ statusText s)

/-- Model of `JSON.stringify` restricted to the values the embedding carries: a
missing error serializes to the string `undefined` (template
interpolation of `JSON.stringify(undefined)`), a plain string without
special characters to the quoted string. -/
def jsonStringify : Option String → String
  | none => "undefined"
  | some s => "\"" ++ s ++ "\""

/-- Function `markJobAsCompleted` (lines 256-272): queue acknowledgment effects for
a persisted run status. -/
def markJobAsCompleted (status : FlowRunStatus) (jobId : String)
    (error : Option String) : List Effect :=
  match status with
  | FlowRunStatus.FAILED => [Effect.queueAck jobId JobStatus.COMPLETED ("Flow succeeded")]
  | FlowRunStatus.TIMEOUT => [Effect.queueAck jobId JobStatus.COMPLETED ("Flow succeeded")]
  | FlowRunStatus.PAUSED => [Effect.queueAck jobId JobStatus.COMPLETED ("Flow succeeded")]
  | FlowRunStatus.QUOTA_EXCEEDED => [Effect.queueAck jobId JobStatus.COMPLETED ("Flow succeeded")]
  | FlowRunStatus.MEMORY_LIMIT_EXCEEDED => [Effect.queueAck jobId JobStatus.COMPLETED ("Flow succeeded")]
  | FlowRunStatus.SUCCEEDED => [Effect.queueAck jobId JobStatus.COMPLETED ("Flow succeeded")]
  | FlowRunStatus.QUEUED => []
  | FlowRunStatus.RUNNING => []
  | FlowRunStatus.INTERNAL_ERROR =>
      [Effect.queueAck jobId JobStatus.FAILED
        ("Internal error reported by engine: " ++ jsonStringify error)]

/-- Line 286: `flowRun.pauseMetadata?.type === PauseType.WEBHOOK ?
flowRun.pauseMetadata?.requestId : undefined`. -/
def webhookRequestId (run : FlowRun) : Option String :=
  match run.pauseMetadata with
  | some m => if m.type == PauseType.WEBHOOK then m.requestId else none
  | none => none

/-- Function `markParentRunAsFailed` (lines 274-298).  The parent run load
(`getOneOrThrow`) is supplied by the environment; the `requestId`
extraction and the `assertNotNullOrUndefined` throw follow the source.
Modelled from the spec: `apAxios` (server-shared `lib/ap-axios`) is not
under `src/`; per the spec the outbound delivery is best-effort — a
delivery failure is logged and absorbed rather than thrown, which the
`postFails` branch records with a `logError` effect. -/
def markParentRunAsFailed (env : Env)
    (parentRunId childRunId projectId platformId : String) :
    List Effect × Except String Unit :=
  match webhookRequestId env.parentRun with
  | none => ([], Except.error ("Parent run has no request id"))
  | some requestId =>
      let callbackUrl := env.publicApiUrl
        ("/v1/flow-runs/" ++ parentRunId ++ "/requests/" ++ requestId) platformId
      let childRunUrl := env.publicUrl
        ("/projects/" ++ projectId ++ "/runs/" ++ childRunId) platformId
      let postEff := Effect.apPost callbackUrl
        { status := "error", message := "Subflow execution failed", link := childRunUrl }
      if env.postFails then
        ([postEff, Effect.logError ("cascade delivery failed")], Except.ok ())
      else
        ([postEff], Except.ok ())

/-- Lines 89-96: the conditional publish.  `getFlowResponse` is awaited
before `publish`, so its throw prevents the publish itself. -/
def publishStep (req : UpdateRunRequest) : Except String (List Effect) :=
  match req.httpRequestId, req.workerHandlerId, isNonSupported req.runDetails.status with
  | some r, some h, false =>
      (getFlowResponse req.runDetails.status).map
        (fun resp => [Effect.publish r h resp])
  | _, _, _ => Except.ok []

/-- Lines 98-106: the run store update effect. -/
def storeEffect (req : UpdateRunRequest) : Effect :=
  Effect.updateRunStore req.runId req.runDetails.status req.runDetails.tasks
    req.runDetails.duration (req.runDetails.tags.getD []) req.failedStepName

/-- Line 109: `!isNil(executionStateContentLength) &&
executionStateContentLength > 0`. -/
def hasLogs (req : UpdateRunRequest) : Bool :=
  match req.executionStateContentLength with
  | some n => decide (0 < n)
  | none => false

/-- Lines 108-121: either request a log-upload target (returning its
upload URL) or broadcast the run-progress event — never both. -/
def logsStep (env : Env) (projectId : String) (req : UpdateRunRequest) :
    List Effect × Option String :=
  if hasLogs req then
    ([Effect.updateLogs req.runId env.runWithoutSteps.logsFileId
        (req.executionStateContentLength.getD 0)], some env.uploadUrl)
  else
    ([Effect.emitProgress projectId req.runId], none)

/-- The base object of the pause-metadata literal:
`{progressUpdateType, handlerId: workerHandlerId ?? undefined, ...}`.
A field explicitly set to `undefined` reads identically to an absent
field, so it is modelled as absent. -/
def pauseBase (pt : ProgressUpdateType) (workerHandlerId : Option String) :
    List (String × String) :=
  ("progressUpdateType", progressUpdateTypeText pt) ::
    (match workerHandlerId with
     | some h => [("handlerId", h)]
     | none => [])

/-- Lines 123-132: pause persistence with the spread-merged metadata
(the caller-supplied object is spread last, so its bindings win). -/
def pauseStep (req : UpdateRunRequest) : List Effect :=
  if req.runDetails.status == FlowRunStatus.PAUSED then
    [Effect.pause req.runId
      (pauseBase (req.progressUpdateType.getD ProgressUpdateType.NONE)
          req.workerHandlerId
        ++ req.runDetails.pauseMetadata.getD [])]
  else []

/-- Condition `![SUCCEEDED, RUNNING, PAUSED, QUEUED].includes(status)` (line 134). -/
def isCascadeExcluded (s : FlowRunStatus) : Bool :=
  s == FlowRunStatus.SUCCEEDED || s == FlowRunStatus.RUNNING ||
    s == FlowRunStatus.PAUSED || s == FlowRunStatus.QUEUED

/-- Lines 134-143: the conditional parent cascade.  The `cascadeInvoke`
effect records the call to `markParentRunAsFailed` itself. -/
def cascadeStep (env : Env) (projectId platformId : String) :
    List Effect × Except String Unit :=
  match env.runWithoutSteps.parentRunId,
    env.runWithoutSteps.failParentOnFailure &&
      !(isCascadeExcluded env.runWithoutSteps.status) with
  | some p, true =>
      (Effect.cascadeInvoke p env.runWithoutSteps.id projectId platformId ::
          (markParentRunAsFailed env p env.runWithoutSteps.id projectId platformId).1,
        (markParentRunAsFailed env p env.runWithoutSteps.id projectId platformId).2)
  | _, _ => ([], Except.ok ())

/-- The `/update-run` handler (lines 85-148) as a trace-producing function.
The first component is the trace of effects that actually happened; the
second is the handler outcome (the returned `uploadUrl`, or the thrown
error). -/
def updateRunHandler (env : Env) (projectId platformId : String)
    (req : UpdateRunRequest) : List Effect × Except String (Option String) :=
  match publishStep req with
  | Except.error e => ([], Except.error e)
  | Except.ok pubEffs =>
      let trace := pubEffs ++ storeEffect req ::
        ((logsStep env projectId req).1 ++ pauseStep req ++
          markJobAsCompleted env.runWithoutSteps.status env.runWithoutSteps.id
            req.runDetails.error ++
          (cascadeStep env projectId platformId).1)
      match (cascadeStep env projectId platformId).2 with
      | Except.error e => (trace, Except.error e)
      | Except.ok _ => (trace, Except.ok (logsStep env projectId req).2)

/-! ## Trace lemma kit -/

lemma ofKind_eq_false {k : EffKind} {e : Effect} (h : effKind e ≠ k) :
    ofKind k e = false := by
  simp [ofKind, beq_eq_false_iff_ne]
  exact h

lemma kfilter_append (k : EffKind) (l₁ l₂ : List Effect) :
    kfilter k (l₁ ++ l₂) = kfilter k l₁ ++ kfilter k l₂ := by
  simp [kfilter, List.filter_append]

lemma kfilter_nil (k : EffKind) : kfilter k [] = [] := rfl

lemma kfilter_cons_self {k : EffKind} {e : Effect} (h : effKind e = k)
    (tr : List Effect) : kfilter k (e :: tr) = e :: kfilter k tr := by
  simp [kfilter, List.filter_cons, ofKind, h]

lemma kfilter_cons_ne {k : EffKind} {e : Effect} (h : effKind e ≠ k)
    (tr : List Effect) : kfilter k (e :: tr) = kfilter k tr := by
  simp [kfilter, List.filter_cons, ofKind_eq_false h]

lemma kfilter_store (k : EffKind) (req : UpdateRunRequest)
    (h : k ≠ EffKind.storeK) : kfilter k [storeEffect req] = [] := by
  rw [storeEffect, kfilter_cons_ne (by simp [effKind]; exact fun hh => h hh.symm)]
  rfl

lemma kfilter_logsStep (k : EffKind) (env : Env) (pid : String)
    (req : UpdateRunRequest) (h₁ : k ≠ EffKind.logsK) (h₂ : k ≠ EffKind.emitK) :
    kfilter k (logsStep env pid req).1 = [] := by
  unfold logsStep
  split
  · rw [kfilter_cons_ne (by simp [effKind]; exact fun hh => h₁ hh.symm)]
    rfl
  · rw [kfilter_cons_ne (by simp [effKind]; exact fun hh => h₂ hh.symm)]
    rfl

lemma kfilter_pauseStep (k : EffKind) (req : UpdateRunRequest)
    (h : k ≠ EffKind.pauseK) : kfilter k (pauseStep req) = [] := by
  unfold pauseStep
  split
  · rw [kfilter_cons_ne (by simp [effKind]; exact fun hh => h hh.symm)]
    rfl
  · rfl

lemma kfilter_markJob (k : EffKind) (s : FlowRunStatus) (j : String)
    (e : Option String) (h : k ≠ EffKind.ackK) :
    kfilter k (markJobAsCompleted s j e) = [] := by
  cases s <;>
    simp [markJobAsCompleted, kfilter, List.filter_cons,
      ofKind_eq_false (show EffKind.ackK ≠ k from fun hh => h hh.symm) (e := Effect.queueAck _ _ _)]

lemma kfilter_markParent (k : EffKind) (env : Env) (p c pid plid : String)
    (h₁ : k ≠ EffKind.postK) (h₂ : k ≠ EffKind.logErrK) :
    kfilter k (markParentRunAsFailed env p c pid plid).1 = [] := by
  unfold markParentRunAsFailed
  cases webhookRequestId env.parentRun with
  | none => rfl
  | some rid =>
      cases hp : env.postFails <;>
        simp [hp, kfilter, List.filter_cons,
          ofKind_eq_false (show effKind (Effect.apPost _ _) ≠ k from fun hh => h₁ hh.symm),
          ofKind_eq_false (show effKind (Effect.logError _) ≠ k from fun hh => h₂ hh.symm)]

lemma kfilter_cascadeStep (k : EffKind) (env : Env) (pid plid : String)
    (h₁ : k ≠ EffKind.invokeK) (h₂ : k ≠ EffKind.postK) (h₃ : k ≠ EffKind.logErrK) :
    kfilter k (cascadeStep env pid plid).1 = [] := by
  unfold cascadeStep
  cases hr : env.runWithoutSteps.parentRunId with
  | none =>
      cases env.runWithoutSteps.failParentOnFailure &&
        !(isCascadeExcluded env.runWithoutSteps.status) <;> rfl
  | some p =>
      cases hb : env.runWithoutSteps.failParentOnFailure &&
        !(isCascadeExcluded env.runWithoutSteps.status) with
      | false => rfl
      | true =>
          rw [kfilter_cons_ne (by simp [effKind]; exact fun hh => h₁ hh.symm)]
          exact kfilter_markParent k env p _ pid plid h₂ h₃

/-- Response statuses the mapping table covers. -/
def mappedStatus (s : FlowRunStatus) : Bool :=
  s == FlowRunStatus.FAILED || s == FlowRunStatus.TIMEOUT ||
    s == FlowRunStatus.INTERNAL_ERROR || s == FlowRunStatus.QUOTA_EXCEEDED ||
    s == FlowRunStatus.MEMORY_LIMIT_EXCEEDED

/-- The successfully mapped response of `getFlowResponse` (meaningful only
when `mappedStatus` holds). -/
def mappedResponse (s : FlowRunStatus) : EngineHttpResponse :=
  match getFlowResponse s with
  | Except.ok resp => resp
  | Except.error _ => { status := 0, body := [], headers := [] }

/-- Status-code table as written in the spec (§4.1): 500 for
`INTERNAL_ERROR`, 500 for `FAILED` and `MEMORY_LIMIT_EXCEEDED`, 504 for
`TIMEOUT`, 204 for `QUOTA_EXCEEDED`. -/
def specRespCode : FlowRunStatus → Nat
  | FlowRunStatus.INTERNAL_ERROR => 500
  | FlowRunStatus.FAILED => 500
  | FlowRunStatus.MEMORY_LIMIT_EXCEEDED => 500
  | FlowRunStatus.TIMEOUT => 504
  | FlowRunStatus.QUOTA_EXCEEDED => 204
  | _ => 0

lemma mapped_not_nonSupported {s : FlowRunStatus} (h : mappedStatus s = true) :
    isNonSupported s = false := by
  cases s <;> simp_all [mappedStatus, isNonSupported]

lemma publishStep_none_http {req : UpdateRunRequest}
    (h : req.httpRequestId = none) : publishStep req = Except.ok [] := by
  unfold publishStep
  rw [h]

lemma publishStep_none_worker {req : UpdateRunRequest}
    (h : req.workerHandlerId = none) : publishStep req = Except.ok [] := by
  unfold publishStep
  rw [h]
  cases req.httpRequestId <;> rfl

lemma publishStep_nonSupported {req : UpdateRunRequest}
    (h : isNonSupported req.runDetails.status = true) :
    publishStep req = Except.ok [] := by
  unfold publishStep
  rw [h]
  cases req.httpRequestId <;> cases req.workerHandlerId <;> rfl

lemma publishStep_mapped {req : UpdateRunRequest} {r w : String}
    (hr : req.httpRequestId = some r) (hw : req.workerHandlerId = some w)
    (hm : mappedStatus req.runDetails.status = true) :
    publishStep req =
      Except.ok [Effect.publish r w (mappedResponse req.runDetails.status)] := by
  unfold publishStep
  rw [hr, hw, mapped_not_nonSupported hm]
  cases hs : req.runDetails.status <;>
    simp_all [mappedStatus, getFlowResponse, mappedResponse, Except.map]

lemma publishStep_queued {req : UpdateRunRequest} {r w : String}
    (hr : req.httpRequestId = some r) (hw : req.workerHandlerId = some w)
    (hq : req.runDetails.status = FlowRunStatus.QUEUED) :
    publishStep req = Except.error ("Unexpected flow run status: QUEUED") := by
  unfold publishStep
  rw [hr, hw, hq]
  rfl

/-- The report trips the fail-fast path: status `QUEUED` with both
identifiers present (the only way the publish step throws). -/
def failsFastB (req : UpdateRunRequest) : Bool :=
  req.runDetails.status == FlowRunStatus.QUEUED &&
    req.workerHandlerId.isSome && req.httpRequestId.isSome

lemma publishStep_ok_of_not_failsFast {req : UpdateRunRequest}
    (h : failsFastB req = false) : ∃ l, publishStep req = Except.ok l := by
  unfold publishStep
  cases hr : req.httpRequestId with
  | none => exact ⟨[], rfl⟩
  | some r =>
      cases hw : req.workerHandlerId with
      | none => exact ⟨[], rfl⟩
      | some w =>
          cases hn : isNonSupported req.runDetails.status with
          | true => exact ⟨[], rfl⟩
          | false =>
              cases hs : req.runDetails.status <;>
                simp_all [failsFastB, isNonSupported, getFlowResponse, Except.map]

lemma publishStep_elems {req : UpdateRunRequest} {l : List Effect}
    (h : publishStep req = Except.ok l) (k : EffKind)
    (hk : k ≠ EffKind.publishK) : kfilter k l = [] := by
  unfold publishStep at h
  cases hr : req.httpRequestId with
  | none => rw [hr] at h; cases h; rfl
  | some r =>
      cases hw : req.workerHandlerId with
      | none => rw [hr, hw] at h; cases h; rfl
      | some w =>
          cases hn : isNonSupported req.runDetails.status with
          | true => rw [hr, hw, hn] at h; cases h; rfl
          | false =>
              rw [hr, hw, hn] at h
              cases hg : getFlowResponse req.runDetails.status with
              | error e => rw [hg] at h; cases h
              | ok resp =>
                  rw [hg] at h
                  cases h
                  rw [kfilter_cons_ne (by simp [effKind]; exact fun hh => hk hh.symm)]
                  rfl

lemma handler_trace {env : Env} {pid plid : String} {req : UpdateRunRequest}
    {l : List Effect} (hp : publishStep req = Except.ok l) :
    (updateRunHandler env pid plid req).1 =
      l ++ storeEffect req ::
        ((logsStep env pid req).1 ++ pauseStep req ++
          markJobAsCompleted env.runWithoutSteps.status env.runWithoutSteps.id
            req.runDetails.error ++
          (cascadeStep env pid plid).1) := by
  unfold updateRunHandler
  rw [hp]
  cases hc : (cascadeStep env pid plid).2 <;> simp

lemma handler_result {env : Env} {pid plid : String} {req : UpdateRunRequest}
    {l : List Effect} (hp : publishStep req = Except.ok l) :
    (updateRunHandler env pid plid req).2 =
      (match (cascadeStep env pid plid).2 with
       | Except.error e => Except.error e
       | Except.ok _ => Except.ok (logsStep env pid req).2) := by
  unfold updateRunHandler
  rw [hp]
  cases hc : (cascadeStep env pid plid).2 <;> simp [hc]

lemma kfilter_cons_append (k : EffKind) (e : Effect) (l : List Effect) :
    kfilter k (e :: l) = kfilter k [e] ++ kfilter k l := by
  cases h : ofKind k e <;> simp [kfilter, List.filter_cons, h]

/-- Decomposition of a handler trace's kind-`k` sub-trace into the
contributions of the six steps. -/
lemma kfilter_handler_decomp (k : EffKind) (env : Env) (pid plid : String)
    {req : UpdateRunRequest} {l : List Effect}
    (hp : publishStep req = Except.ok l) :
    kfilter k (updateRunHandler env pid plid req).1 =
      kfilter k l ++ kfilter k [storeEffect req] ++
        kfilter k (logsStep env pid req).1 ++ kfilter k (pauseStep req) ++
        kfilter k (markJobAsCompleted env.runWithoutSteps.status
          env.runWithoutSteps.id req.runDetails.error) ++
        kfilter k (cascadeStep env pid plid).1 := by
  rw [handler_trace hp, kfilter_append, kfilter_cons_append, kfilter_append,
    kfilter_append, kfilter_append]
  simp [List.append_assoc]

lemma cascadeStep_pos {env : Env} {p : String} (pid plid : String)
    (hr : env.runWithoutSteps.parentRunId = some p)
    (hb : (env.runWithoutSteps.failParentOnFailure &&
      !(isCascadeExcluded env.runWithoutSteps.status)) = true) :
    cascadeStep env pid plid =
      (Effect.cascadeInvoke p env.runWithoutSteps.id pid plid ::
          (markParentRunAsFailed env p env.runWithoutSteps.id pid plid).1,
        (markParentRunAsFailed env p env.runWithoutSteps.id pid plid).2) := by
  unfold cascadeStep
  rw [hr, hb]

lemma cascadeStep_neg_none {env : Env} (pid plid : String)
    (hr : env.runWithoutSteps.parentRunId = none) :
    cascadeStep env pid plid = ([], Except.ok ()) := by
  unfold cascadeStep
  rw [hr]

lemma cascadeStep_neg_flag {env : Env} (pid plid : String)
    (hb : (env.runWithoutSteps.failParentOnFailure &&
      !(isCascadeExcluded env.runWithoutSteps.status)) = false) :
    cascadeStep env pid plid = ([], Except.ok ()) := by
  unfold cascadeStep
  rw [hb]
  cases env.runWithoutSteps.parentRunId <;> rfl

lemma mappedResponse_code {s : FlowRunStatus} (h : mappedStatus s = true) :
    (mappedResponse s).status = specRespCode s := by
  cases s <;> simp_all [mappedStatus, mappedResponse, getFlowResponse, specRespCode]

/-! ## Claim theorems -/

/-- C1: for every update-run report whose status is in
`{FAILED, TIMEOUT, INTERNAL_ERROR, QUOTA_EXCEEDED, MEMORY_LIMIT_EXCEEDED}`
and whose `workerHandlerId` and `httpRequestId` are both non-nil, exactly
one publish to the Response Waiter Registry occurs, under
`(httpRequestId, workerHandlerId)`, with payload status code 500 for
`INTERNAL_ERROR`, 500 for `FAILED` and `MEMORY_LIMIT_EXCEEDED`, 504 for
`TIMEOUT`, and 204 with empty body for `QUOTA_EXCEEDED`; and for every
report whose status is `RUNNING`, `SUCCEEDED` or `PAUSED`, or where either
identifier is nil, no publish occurs. -/
theorem c1_publish_exactly_once (env : Env) (pid plid : String)
    (req : UpdateRunRequest) :
    (∀ r w, req.httpRequestId = some r → req.workerHandlerId = some w →
      mappedStatus req.runDetails.status = true →
        kfilter EffKind.publishK (updateRunHandler env pid plid req).1 =
          [Effect.publish r w (mappedResponse req.runDetails.status)] ∧
        (mappedResponse req.runDetails.status).status =
          specRespCode req.runDetails.status ∧
        (req.runDetails.status = FlowRunStatus.QUOTA_EXCEEDED →
          (mappedResponse req.runDetails.status).body = [])) ∧
    ((isNonSupported req.runDetails.status = true ∨ req.httpRequestId = none ∨
        req.workerHandlerId = none) →
      kfilter EffKind.publishK (updateRunHandler env pid plid req).1 = []) := by
  constructor
  · intro r w hr hw hm
    refine ⟨?_, mappedResponse_code hm, ?_⟩
    · rw [kfilter_handler_decomp EffKind.publishK env pid plid (publishStep_mapped hr hw hm)]
      rw [kfilter_store _ _ (by decide), kfilter_logsStep _ _ _ _ (by decide) (by decide),
        kfilter_pauseStep _ _ (by decide), kfilter_markJob _ _ _ _ (by decide),
        kfilter_cascadeStep _ _ _ _ (by decide) (by decide) (by decide)]
      simp [kfilter, ofKind, effKind]
    · intro hq
      rw [hq]
      rfl
  · intro hd
    have hp : publishStep req = Except.ok [] := by
      rcases hd with h | h | h
      · exact publishStep_nonSupported h
      · exact publishStep_none_http h
      · exact publishStep_none_worker h
    rw [kfilter_handler_decomp EffKind.publishK env pid plid hp]
    rw [kfilter_store _ _ (by decide), kfilter_logsStep _ _ _ _ (by decide) (by decide),
      kfilter_pauseStep _ _ (by decide), kfilter_markJob _ _ _ _ (by decide),
      kfilter_cascadeStep _ _ _ _ (by decide) (by decide) (by decide)]
    rfl

/-! ## Concrete instances used by the witnesses -/

/-- A concrete URL resolver for witness environments. -/
def plainURL : String → String → String := fun path plat => plat ++ path

def baseRun : FlowRun :=
  { id := "run1", status := FlowRunStatus.SUCCEEDED, logsFileId := none,
    failParentOnFailure := false, parentRunId := none, pauseMetadata := none }

def baseEnv : Env :=
  { runWithoutSteps := baseRun, uploadUrl := "upload-url-1", parentRun := baseRun,
    publicApiUrl := plainURL, publicUrl := plainURL, postFails := false }

def baseDetails : RunDetails :=
  { status := FlowRunStatus.SUCCEEDED, tasks := none, duration := none,
    tags := none, error := none, pauseMetadata := none }

def baseReq : UpdateRunRequest :=
  { runId := "run1", workerHandlerId := none, httpRequestId := none,
    runDetails := baseDetails, executionStateBuffer := none,
    executionStateContentLength := none, failedStepName := none,
    progressUpdateType := none }

def reqC1 : UpdateRunRequest :=
  { baseReq with
      httpRequestId := some ("r1"), workerHandlerId := some ("h1"),
      runDetails := { baseDetails with status := FlowRunStatus.TIMEOUT } }

/-- Witness for C1: a `TIMEOUT` report with both identifiers publishes
exactly the 504 payload. -/
theorem c1_publish_exactly_once_witness :
    mappedStatus reqC1.runDetails.status = true ∧
    kfilter EffKind.publishK (updateRunHandler baseEnv ("proj1") ("plat1") reqC1).1 =
      [Effect.publish ("r1") ("h1") (mappedResponse FlowRunStatus.TIMEOUT)] ∧
    (mappedResponse FlowRunStatus.TIMEOUT).status = 504 :=
  ⟨by decide,
    ((c1_publish_exactly_once baseEnv ("proj1") ("plat1") reqC1).1 ("r1") ("h1") rfl rfl
      (by decide)).1,
    by decide⟩

/-! ## Further helper lemmas -/

lemma kfilter_markJob_self (s : FlowRunStatus) (j : String) (e : Option String) :
    kfilter EffKind.ackK (markJobAsCompleted s j e) = markJobAsCompleted s j e := by
  cases s <;> simp [markJobAsCompleted, kfilter, List.filter_cons, ofKind, effKind]

lemma handler_error {env : Env} {pid plid : String} {req : UpdateRunRequest}
    {e : String} (hp : publishStep req = Except.error e) :
    updateRunHandler env pid plid req = ([], Except.error e) := by
  unfold updateRunHandler
  rw [hp]

lemma logsStep_pos {env : Env} {pid : String} {req : UpdateRunRequest}
    (h : hasLogs req = true) :
    logsStep env pid req =
      ([Effect.updateLogs req.runId env.runWithoutSteps.logsFileId
          (req.executionStateContentLength.getD 0)], some env.uploadUrl) := by
  simp [logsStep, h]

lemma logsStep_neg {env : Env} {pid : String} {req : UpdateRunRequest}
    (h : hasLogs req = false) :
    logsStep env pid req = ([Effect.emitProgress pid req.runId], none) := by
  simp [logsStep, h]

lemma markParent_invalid {env : Env} (p c pid plid : String)
    (hctx : webhookRequestId env.parentRun = none) :
    markParentRunAsFailed env p c pid plid =
      ([], Except.error ("Parent run has no request id")) := by
  unfold markParentRunAsFailed
  rw [hctx]

lemma markParent_valid {env : Env} {rid : String} (p c pid plid : String)
    (hctx : webhookRequestId env.parentRun = some rid) :
    markParentRunAsFailed env p c pid plid =
      (Effect.apPost
          (env.publicApiUrl ("/v1/flow-runs/" ++ p ++ "/requests/" ++ rid) plid)
          { status := "error", message := "Subflow execution failed",
            link := env.publicUrl ("/projects/" ++ pid ++ "/runs/" ++ c) plid } ::
        (if env.postFails then [Effect.logError ("cascade delivery failed")] else []),
       Except.ok ()) := by
  unfold markParentRunAsFailed
  rw [hctx]
  cases hpf : env.postFails <;> simp [hpf]

/-- C2: the queue acknowledgment after persisting the run maps the
persisted status: `SUCCEEDED`, `FAILED`, `TIMEOUT`, `PAUSED`,
`QUOTA_EXCEEDED` and `MEMORY_LIMIT_EXCEEDED` each produce exactly one
`COMPLETED` acknowledgment; `INTERNAL_ERROR` produces exactly one `FAILED`
acknowledgment whose message contains the serialized report error (as its
suffix); `QUEUED` and `RUNNING` produce no acknowledgment. -/
theorem c2_ack_mapping (env : Env) (pid plid : String) (req : UpdateRunRequest)
    (h : failsFastB req = false) :
    ((env.runWithoutSteps.status == FlowRunStatus.SUCCEEDED ||
        env.runWithoutSteps.status == FlowRunStatus.FAILED ||
        env.runWithoutSteps.status == FlowRunStatus.TIMEOUT ||
        env.runWithoutSteps.status == FlowRunStatus.PAUSED ||
        env.runWithoutSteps.status == FlowRunStatus.QUOTA_EXCEEDED ||
        env.runWithoutSteps.status == FlowRunStatus.MEMORY_LIMIT_EXCEEDED) = true →
      kfilter EffKind.ackK (updateRunHandler env pid plid req).1 =
        [Effect.queueAck env.runWithoutSteps.id JobStatus.COMPLETED ("Flow succeeded")]) ∧
    (env.runWithoutSteps.status = FlowRunStatus.INTERNAL_ERROR →
      kfilter EffKind.ackK (updateRunHandler env pid plid req).1 =
        [Effect.queueAck env.runWithoutSteps.id JobStatus.FAILED
          ("Internal error reported by engine: " ++ jsonStringify req.runDetails.error)]) ∧
    ((env.runWithoutSteps.status = FlowRunStatus.QUEUED ∨
        env.runWithoutSteps.status = FlowRunStatus.RUNNING) →
      kfilter EffKind.ackK (updateRunHandler env pid plid req).1 = []) := by
  obtain ⟨l, hp⟩ := publishStep_ok_of_not_failsFast h
  have hd := kfilter_handler_decomp EffKind.ackK env pid plid hp
  rw [publishStep_elems hp _ (by decide), kfilter_store _ _ (by decide),
    kfilter_logsStep _ _ _ _ (by decide) (by decide), kfilter_pauseStep _ _ (by decide),
    kfilter_cascadeStep _ _ _ _ (by decide) (by decide) (by decide),
    kfilter_markJob_self] at hd
  simp at hd
  refine ⟨?_, ?_, ?_⟩ <;> intro hs
  · rw [hd]
    cases hst : env.runWithoutSteps.status <;>
      simp_all [markJobAsCompleted]
  · rw [hd, hs]
    rfl
  · rw [hd]
    rcases hs with hs | hs <;> rw [hs] <;> rfl

def envC2 : Env :=
  { baseEnv with
      runWithoutSteps := { baseRun with status := FlowRunStatus.INTERNAL_ERROR } }

def reqC2 : UpdateRunRequest :=
  { baseReq with
      runDetails := { baseDetails with
        status := FlowRunStatus.INTERNAL_ERROR, error := some ("boom") } }

/-- Witness for C2: an `INTERNAL_ERROR` report with error `boom` and no
`httpRequestId` yields exactly one `FAILED` acknowledgment whose message
contains `boom`. -/
theorem c2_ack_mapping_witness :
    failsFastB reqC2 = false ∧
    kfilter EffKind.ackK (updateRunHandler envC2 ("proj1") ("plat1") reqC2).1 =
      [Effect.queueAck ("run1") JobStatus.FAILED
        ("Internal error reported by engine: " ++ jsonStringify (some ("boom")))] ∧
    ∃ pre post,
      ("Internal error reported by engine: " ++ jsonStringify (some ("boom"))) =
        pre ++ "boom" ++ post :=
  ⟨by decide,
    (c2_ack_mapping envC2 ("proj1") ("plat1") reqC2 (by decide)).2.1 rfl,
    ⟨"Internal error reported by engine: \"", "\"", by decide⟩⟩

/-- C3: the Parent Cascade Notifier is invoked exactly once, with the
persisted run's `parentRunId` as parent and the run's own id as child, if
and only if the persisted run has `failParentOnFailure = true`, a non-null
`parentRunId`, and a post-update status not in
`{SUCCEEDED, RUNNING, PAUSED, QUEUED}`; in particular
`failParentOnFailure = false` never triggers a cascade. -/
theorem c3_cascade_iff (env : Env) (pid plid : String) (req : UpdateRunRequest)
    (h : failsFastB req = false) :
    (∀ p, env.runWithoutSteps.parentRunId = some p →
      env.runWithoutSteps.failParentOnFailure = true →
      isCascadeExcluded env.runWithoutSteps.status = false →
      kfilter EffKind.invokeK (updateRunHandler env pid plid req).1 =
        [Effect.cascadeInvoke p env.runWithoutSteps.id pid plid]) ∧
    ((env.runWithoutSteps.failParentOnFailure &&
        env.runWithoutSteps.parentRunId.isSome &&
        !(isCascadeExcluded env.runWithoutSteps.status)) = false →
      kfilter EffKind.invokeK (updateRunHandler env pid plid req).1 = []) := by
  obtain ⟨l, hp⟩ := publishStep_ok_of_not_failsFast h
  have hd := kfilter_handler_decomp EffKind.invokeK env pid plid hp
  rw [publishStep_elems hp _ (by decide), kfilter_store _ _ (by decide),
    kfilter_logsStep _ _ _ _ (by decide) (by decide), kfilter_pauseStep _ _ (by decide),
    kfilter_markJob _ _ _ _ (by decide)] at hd
  simp at hd
  constructor
  · intro p hpr hf hex
    rw [hd, cascadeStep_pos pid plid hpr (by simp [hf, hex]), kfilter_cons_append,
      kfilter_markParent EffKind.invokeK env p env.runWithoutSteps.id pid plid
        (by decide) (by decide)]
    simp [kfilter, ofKind, effKind]
  · intro hneg
    rw [hd]
    cases hpr : env.runWithoutSteps.parentRunId with
    | none =>
        rw [cascadeStep_neg_none pid plid hpr]
        rfl
    | some p =>
        have hb : (env.runWithoutSteps.failParentOnFailure &&
            !(isCascadeExcluded env.runWithoutSteps.status)) = false := by
          rw [hpr] at hneg
          simpa using hneg
        rw [cascadeStep_neg_flag pid plid hb]
        rfl

def envC3 : Env :=
  { baseEnv with
      runWithoutSteps := { baseRun with
        status := FlowRunStatus.FAILED, failParentOnFailure := true,
        parentRunId := some ("parent1") },
      parentRun := { baseRun with
        id := "parent1", status := FlowRunStatus.PAUSED,
        pauseMetadata := some { type := PauseType.WEBHOOK, requestId := some ("wr1") } } }

def reqC3 : UpdateRunRequest :=
  { baseReq with
      runDetails := { baseDetails with status := FlowRunStatus.FAILED } }

/-- Witness for C3: a persisted `FAILED` run with `failParentOnFailure`
and a parent id triggers exactly one cascade invocation with the right
parent/child pair. -/
theorem c3_cascade_iff_witness :
    failsFastB reqC3 = false ∧
    kfilter EffKind.invokeK (updateRunHandler envC3 ("proj1") ("plat1") reqC3).1 =
      [Effect.cascadeInvoke ("parent1") ("run1") ("proj1") ("plat1")] :=
  ⟨by decide, (c3_cascade_iff envC3 ("proj1") ("plat1") reqC3 (by decide)).1 ("parent1")
    rfl rfl (by decide)⟩

/-- C4: for a report that owes a synchronous response (status not in
`{RUNNING, SUCCEEDED, PAUSED}`, both identifiers present), the publish to
the Response Waiter Registry happens before the Run Store update: the
trace starts with the publish immediately followed by the store write
(and for `QUEUED` the handler aborts before either), so the Run Store
write never precedes the publish. -/
theorem c4_publish_before_store (env : Env) (pid plid : String)
    (req : UpdateRunRequest) (r w : String)
    (hr : req.httpRequestId = some r) (hw : req.workerHandlerId = some w)
    (hn : isNonSupported req.runDetails.status = false) :
    (req.runDetails.status = FlowRunStatus.QUEUED →
      (updateRunHandler env pid plid req).1 = []) ∧
    (mappedStatus req.runDetails.status = true →
      ∃ rest, (updateRunHandler env pid plid req).1 =
        Effect.publish r w (mappedResponse req.runDetails.status) ::
          storeEffect req :: rest ∧
        kfilter EffKind.publishK rest = [] ∧
        kfilter EffKind.storeK rest = []) := by
  constructor
  · intro hq
    rw [handler_error (publishStep_queued hr hw hq)]
  · intro hm
    refine ⟨(logsStep env pid req).1 ++ pauseStep req ++
      markJobAsCompleted env.runWithoutSteps.status env.runWithoutSteps.id
        req.runDetails.error ++ (cascadeStep env pid plid).1, ?_, ?_, ?_⟩
    · rw [handler_trace (publishStep_mapped hr hw hm)]
      rfl
    · rw [kfilter_append, kfilter_append, kfilter_append,
        kfilter_logsStep _ _ _ _ (by decide) (by decide),
        kfilter_pauseStep _ _ (by decide), kfilter_markJob _ _ _ _ (by decide),
        kfilter_cascadeStep _ _ _ _ (by decide) (by decide) (by decide)]
      rfl
    · rw [kfilter_append, kfilter_append, kfilter_append,
        kfilter_logsStep _ _ _ _ (by decide) (by decide),
        kfilter_pauseStep _ _ (by decide), kfilter_markJob _ _ _ _ (by decide),
        kfilter_cascadeStep _ _ _ _ (by decide) (by decide) (by decide)]
      rfl

/-- Witness for C4: the `TIMEOUT` report's trace starts with the publish
followed immediately by the store write. -/
theorem c4_publish_before_store_witness :
    isNonSupported reqC1.runDetails.status = false ∧
    ∃ rest, (updateRunHandler baseEnv ("proj1") ("plat1") reqC1).1 =
      Effect.publish ("r1") ("h1") (mappedResponse FlowRunStatus.TIMEOUT) ::
        storeEffect reqC1 :: rest ∧
      kfilter EffKind.publishK rest = [] ∧ kfilter EffKind.storeK rest = [] :=
  ⟨by decide,
    (c4_publish_before_store baseEnv ("proj1") ("plat1") reqC1 ("r1") ("h1") rfl rfl
      (by decide)).2 (by decide)⟩

def reqC5 : UpdateRunRequest :=
  { baseReq with
      httpRequestId := some ("r1"), workerHandlerId := some ("h1") }

/-- C5 counterexample: a `SUCCEEDED` report carrying a non-nil
`httpRequestId` (and `workerHandlerId`) is processed without any error —
the handler returns `Except.ok`, refuting the claim that the coordinator
fails loudly on this combination. -/
theorem c5_counterexample_no_error :
    (updateRunHandler baseEnv ("proj1") ("plat1") reqC5).2 = Except.ok none := rfl

/-- C5 (amended): a report with status `RUNNING`, `SUCCEEDED` or `PAUSED`
alongside a non-nil `httpRequestId` is not an error: the publish branch is
silently skipped and the handler behaves exactly as if `httpRequestId`
were absent. -/
theorem c5_amended_silent_skip (env : Env) (pid plid : String)
    (req : UpdateRunRequest) (h : isNonSupported req.runDetails.status = true) :
    updateRunHandler env pid plid req =
      updateRunHandler env pid plid { req with httpRequestId := none } ∧
    kfilter EffKind.publishK (updateRunHandler env pid plid req).1 = [] := by
  have hp1 : publishStep req = Except.ok [] := publishStep_nonSupported h
  have hp2 : publishStep { req with httpRequestId := none } = Except.ok [] :=
    publishStep_none_http rfl
  constructor
  · unfold updateRunHandler
    rw [hp1, hp2]
    rfl
  · rw [kfilter_handler_decomp EffKind.publishK env pid plid hp1,
      kfilter_store _ _ (by decide), kfilter_logsStep _ _ _ _ (by decide) (by decide),
      kfilter_pauseStep _ _ (by decide), kfilter_markJob _ _ _ _ (by decide),
      kfilter_cascadeStep _ _ _ _ (by decide) (by decide) (by decide)]
    rfl

/-- Witness for the amended C5. -/
theorem c5_amended_silent_skip_witness :
    isNonSupported reqC5.runDetails.status = true ∧
    kfilter EffKind.publishK (updateRunHandler baseEnv ("proj1") ("plat1") reqC5).1 = [] :=
  ⟨by decide, (c5_amended_silent_skip baseEnv ("proj1") ("plat1") reqC5 (by decide)).2⟩

/-- C7: during a cascade, a parent run whose pause metadata is not of
webhook type or carries no `requestId` makes the cascade fail loudly and
abort with no outbound notification and no mutation (the result is the
thrown invariant error on an empty effect list); with a webhook
`requestId`, exactly one notification `{status: error, data: {message,
link}}` is posted to the callback URL resolved for
`(platformId, parentRunId, requestId)`. -/
theorem c7_cascade_webhook_context (env : Env) (p c pid plid : String) :
    (webhookRequestId env.parentRun = none →
      markParentRunAsFailed env p c pid plid =
        ([], Except.error ("Parent run has no request id"))) ∧
    (∀ rid, webhookRequestId env.parentRun = some rid →
      kfilter EffKind.postK (markParentRunAsFailed env p c pid plid).1 =
        [Effect.apPost
            (env.publicApiUrl ("/v1/flow-runs/" ++ p ++ "/requests/" ++ rid) plid)
            { status := "error", message := "Subflow execution failed",
              link := env.publicUrl ("/projects/" ++ pid ++ "/runs/" ++ c) plid }] ∧
      (markParentRunAsFailed env p c pid plid).2 = Except.ok ()) := by
  constructor
  · intro hctx
    exact markParent_invalid p c pid plid hctx
  · intro rid hctx
    rw [markParent_valid p c pid plid hctx]
    constructor
    · cases hpf : env.postFails <;>
        simp [hpf, kfilter, List.filter_cons, ofKind, effKind]
    · rfl

/-- Witness for C7: a parent without webhook pause metadata aborts the
cascade with the invariant error; one with webhook metadata receives
exactly one outbound POST. -/
theorem c7_cascade_webhook_context_witness :
    webhookRequestId baseEnv.parentRun = none ∧
    markParentRunAsFailed baseEnv ("parent1") ("run1") ("proj1") ("plat1") =
      ([], Except.error ("Parent run has no request id")) ∧
    webhookRequestId envC3.parentRun = some ("wr1") ∧
    kfilter EffKind.postK
        (markParentRunAsFailed envC3 ("parent1") ("run1") ("proj1") ("plat1")).1 =
      [Effect.apPost ("plat1/v1/flow-runs/parent1/requests/wr1")
        { status := "error", message := "Subflow execution failed",
          link := "plat1/projects/proj1/runs/run1" }] :=
  ⟨rfl,
    (c7_cascade_webhook_context baseEnv ("parent1") ("run1") ("proj1") ("plat1")).1 rfl,
    rfl,
    ((c7_cascade_webhook_context envC3 ("parent1") ("run1") ("proj1") ("plat1")).2 ("wr1") rfl).1⟩

def reqC10 : UpdateRunRequest :=
  { baseReq with
      httpRequestId := some ("r1"), workerHandlerId := some ("h1"),
      runDetails := { baseDetails with status := FlowRunStatus.QUEUED } }

/-- C10: a `QUEUED` report with both identifiers present fails fast with
the unexpected-status error, before any effect: the trace is empty, so no
persistence, no queue acknowledgment and no cascade happened. -/
theorem c10_queued_fails_fast (env : Env) (pid plid : String)
    (req : UpdateRunRequest) (r w : String)
    (hq : req.runDetails.status = FlowRunStatus.QUEUED)
    (hr : req.httpRequestId = some r) (hw : req.workerHandlerId = some w) :
    updateRunHandler env pid plid req =
      ([], Except.error ("Unexpected flow run status: QUEUED")) :=
  handler_error (publishStep_queued hr hw hq)

/-- Witness for C10. -/
theorem c10_queued_fails_fast_witness :
    updateRunHandler baseEnv ("proj1") ("plat1") reqC10 =
      ([], Except.error ("Unexpected flow run status: QUEUED")) :=
  c10_queued_fails_fast baseEnv ("proj1") ("plat1") reqC10 ("r1") ("h1") rfl rfl rfl

lemma kfilter_store_self (req : UpdateRunRequest) :
    kfilter EffKind.storeK [storeEffect req] = [storeEffect req] := by
  simp [storeEffect, kfilter, List.filter_cons, ofKind, effKind]

def envC6 : Env :=
  { envC3 with postFails := true }

/-- C6: a failing outbound parent-notification delivery during a cascade
is logged and not retried synchronously (exactly one POST attempt), does
not roll back the already-persisted run update or the queue
acknowledgment, and is not propagated as a failure of the update-run call.
The outbound transport (`apAxios`) is modelled from the spec as
best-effort since its source is not part of this repository fragment. -/
theorem c6_delivery_failure_absorbed (env : Env) (pid plid : String)
    (req : UpdateRunRequest) (p rid : String)
    (h : failsFastB req = false)
    (hpr : env.runWithoutSteps.parentRunId = some p)
    (hf : env.runWithoutSteps.failParentOnFailure = true)
    (hex : isCascadeExcluded env.runWithoutSteps.status = false)
    (hctx : webhookRequestId env.parentRun = some rid)
    (hfail : env.postFails = true) :
    (updateRunHandler env pid plid req).2.isOk = true ∧
    (kfilter EffKind.postK (updateRunHandler env pid plid req).1).length = 1 ∧
    Effect.logError ("cascade delivery failed") ∈ (updateRunHandler env pid plid req).1 ∧
    kfilter EffKind.storeK (updateRunHandler env pid plid req).1 = [storeEffect req] ∧
    kfilter EffKind.ackK (updateRunHandler env pid plid req).1 =
      markJobAsCompleted env.runWithoutSteps.status env.runWithoutSteps.id
        req.runDetails.error := by
  obtain ⟨l, hp⟩ := publishStep_ok_of_not_failsFast h
  have hcas := cascadeStep_pos pid plid hpr (by simp [hf, hex])
  have hmp := markParent_valid p env.runWithoutSteps.id pid plid hctx
  refine ⟨?_, ?_, ?_, ?_, ?_⟩
  · rw [handler_result hp, hcas]
    simp [hmp, Except.isOk, Except.toBool]
  · have hd := kfilter_handler_decomp EffKind.postK env pid plid hp
    rw [publishStep_elems hp _ (by decide), kfilter_store _ _ (by decide),
      kfilter_logsStep _ _ _ _ (by decide) (by decide),
      kfilter_pauseStep _ _ (by decide), kfilter_markJob _ _ _ _ (by decide)] at hd
    simp at hd
    rw [hd, hcas]
    simp [hmp, hfail, kfilter, List.filter_cons, ofKind, effKind]
  · rw [handler_trace hp, hcas]
    simp [hmp, hfail]
  · have hd := kfilter_handler_decomp EffKind.storeK env pid plid hp
    rw [publishStep_elems hp _ (by decide), kfilter_store_self,
      kfilter_logsStep _ _ _ _ (by decide) (by decide),
      kfilter_pauseStep _ _ (by decide), kfilter_markJob _ _ _ _ (by decide),
      kfilter_cascadeStep _ _ _ _ (by decide) (by decide) (by decide)] at hd
    simpa using hd
  · have hd := kfilter_handler_decomp EffKind.ackK env pid plid hp
    rw [publishStep_elems hp _ (by decide), kfilter_store _ _ (by decide),
      kfilter_logsStep _ _ _ _ (by decide) (by decide),
      kfilter_pauseStep _ _ (by decide), kfilter_markJob_self,
      kfilter_cascadeStep _ _ _ _ (by decide) (by decide) (by decide)] at hd
    simpa using hd

/-- Witness for C6: with `postFails` set, the `FAILED` child run's update
still completes (`Except.ok`) and the delivery failure is logged. -/
theorem c6_delivery_failure_absorbed_witness :
    envC6.postFails = true ∧
    (updateRunHandler envC6 ("proj1") ("plat1") reqC3).2.isOk = true ∧
    Effect.logError ("cascade delivery failed") ∈
      (updateRunHandler envC6 ("proj1") ("plat1") reqC3).1 :=
  ⟨rfl,
    (c6_delivery_failure_absorbed envC6 ("proj1") ("plat1") reqC3 ("parent1") ("wr1")
      (by decide) rfl rfl (by decide) rfl rfl).1,
    (c6_delivery_failure_absorbed envC6 ("proj1") ("plat1") reqC3 ("parent1") ("wr1")
      (by decide) rfl rfl (by decide) rfl rfl).2.2.1⟩

/-- JS object field lookup: the LAST binding of a key wins, matching an
object literal in which later (spread) fields overwrite earlier ones. -/
def jsGet (o : List (String × String)) (k : String) : Option String :=
  (o.reverse.find? (fun q => q.1 == k)).map Prod.snd

lemma jsGet_append (a b : List (String × String)) (k : String) :
    jsGet (a ++ b) k = (jsGet b k).or (jsGet a k) := by
  unfold jsGet
  rw [List.reverse_append, List.find?_append]
  cases b.reverse.find? (fun q => q.1 == k) <;> simp [Option.or]

lemma pauseStep_pos {req : UpdateRunRequest}
    (h : req.runDetails.status = FlowRunStatus.PAUSED) :
    pauseStep req =
      [Effect.pause req.runId
        (pauseBase (req.progressUpdateType.getD ProgressUpdateType.NONE)
            req.workerHandlerId ++ req.runDetails.pauseMetadata.getD [])] := by
  simp [pauseStep, h]

/-- C8: a `PAUSED` report persists exactly one pause record whose metadata
is the object-literal merge of `{progressUpdateType, handlerId}` with the
caller-supplied `pauseMetadata` spread last, so caller-supplied fields win
on conflict and base fields survive when the caller does not set them. -/
theorem c8_pause_metadata_merge (env : Env) (pid plid : String)
    (req : UpdateRunRequest)
    (hp : req.runDetails.status = FlowRunStatus.PAUSED) :
    kfilter EffKind.pauseK (updateRunHandler env pid plid req).1 =
      [Effect.pause req.runId
        (pauseBase (req.progressUpdateType.getD ProgressUpdateType.NONE)
            req.workerHandlerId ++ req.runDetails.pauseMetadata.getD [])] ∧
    (∀ k v, jsGet (req.runDetails.pauseMetadata.getD []) k = some v →
      jsGet (pauseBase (req.progressUpdateType.getD ProgressUpdateType.NONE)
          req.workerHandlerId ++ req.runDetails.pauseMetadata.getD []) k = some v) ∧
    (∀ k, jsGet (req.runDetails.pauseMetadata.getD []) k = none →
      jsGet (pauseBase (req.progressUpdateType.getD ProgressUpdateType.NONE)
          req.workerHandlerId ++ req.runDetails.pauseMetadata.getD []) k =
        jsGet (pauseBase (req.progressUpdateType.getD ProgressUpdateType.NONE)
          req.workerHandlerId) k) := by
  have h : failsFastB req = false := by simp [failsFastB, hp]
  obtain ⟨l, hpub⟩ := publishStep_ok_of_not_failsFast h
  refine ⟨?_, ?_, ?_⟩
  · have hd := kfilter_handler_decomp EffKind.pauseK env pid plid hpub
    rw [publishStep_elems hpub _ (by decide), kfilter_store _ _ (by decide),
      kfilter_logsStep _ _ _ _ (by decide) (by decide),
      kfilter_markJob _ _ _ _ (by decide),
      kfilter_cascadeStep _ _ _ _ (by decide) (by decide) (by decide),
      pauseStep_pos hp] at hd
    simpa [kfilter, List.filter_cons, ofKind, effKind] using hd
  · intro k v hk
    rw [jsGet_append, hk]
    rfl
  · intro k hk
    rw [jsGet_append, hk]
    rfl

def reqC8 : UpdateRunRequest :=
  { baseReq with
      workerHandlerId := some ("h2"),
      runDetails := { baseDetails with
        status := FlowRunStatus.PAUSED,
        pauseMetadata := some [("pauseType", "WEBHOOK"), ("requestId", "r9")] } }

def mergedC8 : List (String × String) :=
  [("progressUpdateType", "NONE"), ("handlerId", "h2"),
    ("pauseType", "WEBHOOK"), ("requestId", "r9")]

/-- Witness for C8: the merged metadata holds both the worker's
`handlerId` and the caller's `requestId`. -/
theorem c8_pause_metadata_merge_witness :
    reqC8.runDetails.status = FlowRunStatus.PAUSED ∧
    kfilter EffKind.pauseK (updateRunHandler baseEnv ("proj1") ("plat1") reqC8).1 =
      [Effect.pause ("run1") mergedC8] ∧
    jsGet mergedC8 ("handlerId") = some ("h2") ∧
    jsGet mergedC8 ("requestId") = some ("r9") :=
  ⟨rfl, (c8_pause_metadata_merge baseEnv ("proj1") ("plat1") reqC8 rfl).1,
    by decide, by decide⟩

/-- C9: exactly one of two effects occurs per report: with a positive
`executionStateContentLength` the Run Store is asked for a log-upload
target (with the run's existing `logsFileId`) and its `uploadUrl` is
returned with no UI progress broadcast; otherwise a run-progress broadcast
is emitted to the run's project and the returned `uploadUrl` is
undefined. -/
theorem c9_logs_xor_broadcast (env : Env) (pid plid : String)
    (req : UpdateRunRequest) (h : failsFastB req = false) :
    (hasLogs req = true →
      kfilter EffKind.logsK (updateRunHandler env pid plid req).1 =
        [Effect.updateLogs req.runId env.runWithoutSteps.logsFileId
          (req.executionStateContentLength.getD 0)] ∧
      kfilter EffKind.emitK (updateRunHandler env pid plid req).1 = [] ∧
      (∀ u, (updateRunHandler env pid plid req).2 = Except.ok u →
        u = some env.uploadUrl)) ∧
    (hasLogs req = false →
      kfilter EffKind.emitK (updateRunHandler env pid plid req).1 =
        [Effect.emitProgress pid req.runId] ∧
      kfilter EffKind.logsK (updateRunHandler env pid plid req).1 = [] ∧
      (∀ u, (updateRunHandler env pid plid req).2 = Except.ok u → u = none)) := by
  obtain ⟨l, hpub⟩ := publishStep_ok_of_not_failsFast h
  constructor
  · intro hl
    refine ⟨?_, ?_, ?_⟩
    · have hd := kfilter_handler_decomp EffKind.logsK env pid plid hpub
      rw [publishStep_elems hpub _ (by decide), kfilter_store _ _ (by decide),
        kfilter_pauseStep _ _ (by decide), kfilter_markJob _ _ _ _ (by decide),
        kfilter_cascadeStep _ _ _ _ (by decide) (by decide) (by decide),
        logsStep_pos hl] at hd
      simpa [kfilter, List.filter_cons, ofKind, effKind] using hd
    · have hd := kfilter_handler_decomp EffKind.emitK env pid plid hpub
      rw [publishStep_elems hpub _ (by decide), kfilter_store _ _ (by decide),
        kfilter_pauseStep _ _ (by decide), kfilter_markJob _ _ _ _ (by decide),
        kfilter_cascadeStep _ _ _ _ (by decide) (by decide) (by decide),
        logsStep_pos hl] at hd
      simpa [kfilter, List.filter_cons, ofKind, effKind] using hd
    · intro u hu
      rw [handler_result hpub] at hu
      cases hc : (cascadeStep env pid plid).2 with
      | error e => rw [hc] at hu; simp at hu
      | ok a =>
          rw [hc] at hu
          simp [logsStep_pos hl] at hu
          exact hu.symm
  · intro hl
    refine ⟨?_, ?_, ?_⟩
    · have hd := kfilter_handler_decomp EffKind.emitK env pid plid hpub
      rw [publishStep_elems hpub _ (by decide), kfilter_store _ _ (by decide),
        kfilter_pauseStep _ _ (by decide), kfilter_markJob _ _ _ _ (by decide),
        kfilter_cascadeStep _ _ _ _ (by decide) (by decide) (by decide),
        logsStep_neg hl] at hd
      simpa [kfilter, List.filter_cons, ofKind, effKind] using hd
    · have hd := kfilter_handler_decomp EffKind.logsK env pid plid hpub
      rw [publishStep_elems hpub _ (by decide), kfilter_store _ _ (by decide),
        kfilter_pauseStep _ _ (by decide), kfilter_markJob _ _ _ _ (by decide),
        kfilter_cascadeStep _ _ _ _ (by decide) (by decide) (by decide),
        logsStep_neg hl] at hd
      simpa [kfilter, List.filter_cons, ofKind, effKind] using hd
    · intro u hu
      rw [handler_result hpub] at hu
      cases hc : (cascadeStep env pid plid).2 with
      | error e => rw [hc] at hu; simp at hu
      | ok a =>
          rw [hc] at hu
          simp [logsStep_neg hl] at hu
          exact hu.symm

def reqC9 : UpdateRunRequest :=
  { baseReq with executionStateContentLength := some 42 }

/-- Witness for C9: a report with a positive content length requests the
upload target and does not broadcast; the base report broadcasts and
returns no upload URL. -/
theorem c9_logs_xor_broadcast_witness :
    hasLogs reqC9 = true ∧
    kfilter EffKind.logsK (updateRunHandler baseEnv ("proj1") ("plat1") reqC9).1 =
      [Effect.updateLogs ("run1") none 42] ∧
    kfilter EffKind.emitK (updateRunHandler baseEnv ("proj1") ("plat1") reqC9).1 = [] ∧
    hasLogs baseReq = false ∧
    kfilter EffKind.emitK (updateRunHandler baseEnv ("proj1") ("plat1") baseReq).1 =
      [Effect.emitProgress ("proj1") ("run1")] :=
  ⟨rfl,
    ((c9_logs_xor_broadcast baseEnv ("proj1") ("plat1") reqC9 (by decide)).1 rfl).1,
    ((c9_logs_xor_broadcast baseEnv ("proj1") ("plat1") reqC9 (by decide)).1 rfl).2.1,
    rfl,
    ((c9_logs_xor_broadcast baseEnv ("proj1") ("plat1") baseReq (by decide)).2 rfl).1⟩
